import Mathlib

/-!
Shallow embedding of the svg-screenshots browser extension
(src/shared.ts, src/content.ts, src/popup.ts, background page).

Pure data and control flow are translated directly from the TypeScript
source; browser effects (messages, DOM mutations, alerts) are modelled as
explicit traces, and event-driven UI code as step functions folded over
event lists.
-/

/- ## shared.ts : settings data model -/

/-- `type CaptureArea = 'captureArea' | 'captureViewport' | 'captureElement'` -/
inductive CaptureArea
  | captureArea
  | captureViewport
  | captureElement
deriving DecidableEq, Repr

/-- `type Target = 'download' | 'tab' | 'clipboard' | 'upload-s3'` -/
inductive Target
  | download
  | tab
  | clipboard
  | uploadS3
deriving DecidableEq, Repr

/-- The string the `Target` value denotes (used by `String(settings.target)`). -/
def targetString : Target → String
  | Target.download => "download"
  | Target.tab => "tab"
  | Target.clipboard => "clipboard"
  | Target.uploadS3 => "upload-s3"

/-- `interface Settings` from shared.ts: every field optional. -/
structure Settings where
  minifySvg : Option Bool
  inlineResources : Option Bool
  prettyPrintSvg : Option Bool
  keepLinks : Option Bool
  target : Option Target
  s3Bucket : Option String
  s3Config : Option String
deriving DecidableEq, Repr

/-- `Required<Settings>`: the result type of `applyDefaults`. -/
structure RequiredSettings where
  minifySvg : Bool
  inlineResources : Bool
  prettyPrintSvg : Bool
  keepLinks : Bool
  target : Target
  s3Bucket : String
  s3Config : String
deriving DecidableEq, Repr

/-- `applyDefaults` from shared.ts: destructuring with default values
`inlineResources = true, minifySvg = false, prettyPrintSvg = true,
keepLinks = true, target = 'download', s3Bucket = '', s3Config = ''`. -/
def applyDefaults (s : Settings) : RequiredSettings :=
  { inlineResources := s.inlineResources.getD true
    minifySvg := s.minifySvg.getD false
    prettyPrintSvg := s.prettyPrintSvg.getD true
    keepLinks := s.keepLinks.getD true
    target := s.target.getD Target.download
    s3Bucket := s.s3Bucket.getD ""
    s3Config := s.s3Config.getD "" }

/-- View a complete settings record as a (fully populated) partial one,
as happens when a complete record is stored and read back. -/
def RequiredSettings.toSettings (r : RequiredSettings) : Settings :=
  { minifySvg := some r.minifySvg
    inlineResources := some r.inlineResources
    prettyPrintSvg := some r.prettyPrintSvg
    keepLinks := some r.keepLinks
    target := some r.target
    s3Bucket := some r.s3Bucket
    s3Config := some r.s3Config }

/- ## content.ts : post-processing pipeline (capture, lines 67-88) -/

/-- The three optional post-processing steps of `capture`. -/
inductive PipeStep
  | inlineStep
  | minifyStep
  | prettyStep
deriving DecidableEq, Repr

/-- The external string transformations `capture` dispatches to:
the background page's `postProcessSVG`, `minifySvg` and `formatXML`.
They are opaque collaborators of the orchestrator. -/
structure PipeFns where
  postProcess : String → String
  minify : String → String
  formatXML : String → String

/-- The conditional post-processing chain of `capture`:
inline resources if `settings.inlineResources`; minify if
`settings.minifySvg`; pretty-print if
`settings.prettyPrintSvg && !settings.minifySvg`.
Returns the final string together with the list of steps applied. -/
def processSvgString (f : PipeFns) (settings : RequiredSettings) (svgString : String) :
    String × List PipeStep :=
  let s1 := if settings.inlineResources then
      (f.postProcess svgString, [PipeStep.inlineStep]) else (svgString, [])
  let s2 := if settings.minifySvg then
      (f.minify s1.1, s1.2 ++ [PipeStep.minifyStep]) else s1
  if settings.prettyPrintSvg && !settings.minifySvg then
      (f.formatXML s2.1, s2.2 ++ [PipeStep.prettyStep]) else s2

/- ## content.ts : export dispatch (capture, lines 87-109) -/

/-- `document.title.replace(/["'/]/g, '')`: every occurrence of the
characters `"` (code 34), `'` (code 39) and `/` removed. -/
def strippedTitle (title : String) : String :=
  String.mk (title.data.filter fun c =>
    !(c == Char.ofNat 34 || c == Char.ofNat 39 || c == '/'))

/-- The delivery action the export step performs. `saveFile` is
`saveAs(blob, name)`, `clipboardWrite` is
`navigator.clipboard.writeText`, `openTab` is
`window.open(URL.createObjectURL(blob))` on a blob holding the text. -/
inductive ExportAction
  | saveFile (filename : String) (content : String)
  | clipboardWrite (text : String)
  | openTab (blobContent : String)
deriving DecidableEq, Repr

/-- The target dispatch at the end of `capture`: `download` saves the
file named from the stripped title, `clipboard` writes the text,
`tab` opens the blob, and any other target throws
`Unexpected SVG target ...`. -/
def exportDispatch (target : Target) (documentTitle svgString : String) :
    Except String ExportAction :=
  if target = Target.download then
    Except.ok (ExportAction.saveFile (strippedTitle documentTitle ++ " Screenshot.svg") svgString)
  else if target = Target.clipboard then
    Except.ok (ExportAction.clipboardWrite svgString)
  else if target = Target.tab then
    Except.ok (ExportAction.openTab svgString)
  else
    Except.error ("Unexpected SVG target " ++ targetString target)

/- ## content.ts : main (lines 13-36) -/

/-- Outcome of the awaited capture: either it returned, or it threw an
error with a `name` and a `message` (the cancellation signal is an
`AbortError`). -/
inductive CaptureOutcome
  | success
  | failure (errName : String) (errMsg : String)

/-- Observable effects of `main`. -/
inductive Effect
  | sendMessage (method : String)
  | consoleError (errName : String) (errMsg : String)
  | alertShown (text : String)
deriving DecidableEq, Repr

/-- The alert text built in `main`'s catch block. -/
def alertText (errorMessage : String) : String :=
  "An error happened while capturing the page: " ++ errorMessage ++
    "\nCheck the developer console for more information."

/-- Effect trace of `main`: send `started`, run the capture, on an error
whose name is not `AbortError` log it and alert, and in the `finally`
block always send `finished`. -/
def mainTrace (o : CaptureOutcome) : List Effect :=
  Effect.sendMessage "started" ::
    (match o with
      | CaptureOutcome.success => []
      | CaptureOutcome.failure n m =>
          if n = "AbortError" then []
          else [Effect.consoleError n m, Effect.alertShown (alertText m)]) ++
    [Effect.sendMessage "finished"]

/-- Recognizer for the `finished` message among effects. -/
def isFinishedMessage : Effect → Bool
  | Effect.sendMessage m => m == "finished"
  | _ => false

/- ## content.ts : letUserSelectCaptureArea (lines 118-200) -/

/-- A viewport point (clientX, clientY). -/
structure Pt where
  x : Int
  y : Int
deriving DecidableEq, Repr

/-- The `x`/`y`/`width`/`height` attributes of the `maskCutout`
rectangle; unset SVG length attributes read back as 0. -/
structure CutoutState where
  x : Int
  y : Int
  width : Int
  height : Int
deriving DecidableEq, Repr

/-- Body of the `mousemove` handler: with anchor `start` recorded at
`mousedown` and current position `cur`, set
`x = min(startX, clientX)`, `y = min(startY, clientY)`,
`width = |clientX - startX|`, `height = |clientY - startY|`
(`Math.abs` modelled as `Int.natAbs` cast back to `Int`). -/
def dragMoveCutout (start cur : Pt) : CutoutState :=
  { x := min start.x cur.x
    y := min start.y cur.y
    width := ((cur.x - start.x).natAbs : Int)
    height := ((cur.y - start.y).natAbs : Int) }

/-- Events the area-selection overlay reacts to. -/
inductive SelEvent
  | keyUp (key : String)
  | mouseDown (p : Pt)
  | mouseMove (p : Pt)
  | mouseUp (p : Pt)

/-- State of the pending area-selection promise: the anchor recorded by
`mousedown` (mouse handlers for move/up are only installed then), the
cutout attributes, and whether the promise has settled
(`Except.error` = rejected with the error's name, `Except.ok` =
resolved). -/
structure AreaSelSt where
  anchor : Option Pt
  cutout : CutoutState
  resolved : Option (Except String Unit)

/-- One event step of `letUserSelectCaptureArea`'s promise: a settled
promise ignores further events; `Escape` rejects with `AbortError`;
`mousedown` records the anchor; `mousemove` after `mousedown` rewrites
the cutout attributes; `mouseup` after `mousedown` resolves. -/
def areaStep (st : AreaSelSt) (e : SelEvent) : AreaSelSt :=
  match st.resolved with
  | some _ => st
  | none =>
    match e with
    | SelEvent.keyUp k =>
        if k = "Escape" then { st with resolved := some (Except.error "AbortError") } else st
    | SelEvent.mouseDown p => { st with anchor := some p }
    | SelEvent.mouseMove p =>
        match st.anchor with
        | some a => { st with cutout := dragMoveCutout a p }
        | none => st
    | SelEvent.mouseUp _ =>
        match st.anchor with
        | some _ => { st with resolved := some (Except.ok ()) }
        | none => st

/-- Initial state: no anchor, attributes unset (all 0), promise pending. -/
def areaSelectorInitSt : AreaSelSt :=
  { anchor := none, cutout := { x := 0, y := 0, width := 0, height := 0 }, resolved := none }

/-- `letUserSelectCaptureArea` over an event sequence: `none` while the
promise is still pending, otherwise the rejection's name or the
`DOMRectReadOnly` built from the final cutout attributes. -/
def letUserSelectCaptureArea (events : List SelEvent) : Option (Except String CutoutState) :=
  match (events.foldl areaStep areaSelectorInitSt).resolved with
  | some (Except.ok _) => some (Except.ok (events.foldl areaStep areaSelectorInitSt).cutout)
  | some (Except.error e) => some (Except.error e)
  | none => none

/-- DOM mutations touching an overlay element. -/
inductive DomOp
  | add (id : String)
  | remove (id : String)
deriving DecidableEq, Repr

/-- Whether the element with the given id is in the document after the
given mutations (absent initially). -/
def overlayInDocument (id : String) (ops : List DomOp) : Bool :=
  ops.foldl (fun present op =>
    match op with
    | DomOp.add i => if i = id then true else present
    | DomOp.remove i => if i = id then false else present) false

/-- Overlay mutations of `letUserSelectCaptureArea`: the `svg` overlay
`svg-screenshot-selector` is appended when the promise starts and
removed in the `finally` block once the promise settles (either way). -/
def areaSelectorOverlayOps (events : List SelEvent) : List DomOp :=
  match (events.foldl areaStep areaSelectorInitSt).resolved with
  | some _ => [DomOp.add "svg-screenshot-selector", DomOp.remove "svg-screenshot-selector"]
  | none => [DomOp.add "svg-screenshot-selector"]

/- ## content.ts : letUserSelectCaptureElement (lines 211-256) -/

/-- An event target for the element selector: its element id and the id
of its parent element, when it has one. -/
structure ElemTarget where
  self : Nat
  parent : Option Nat
deriving DecidableEq, Repr

/-- Events the element-selection overlay reacts to; a `click` whose
`event.target` is null carries `none`. -/
inductive ElemEvent
  | keyUp (key : String)
  | mouseMoveOver (t : ElemTarget)
  | click (t : Option ElemTarget)

/-- One event step of `letUserSelectCaptureElement`'s promise: `Escape`
rejects with `AbortError`; `mousemove` only repositions the highlight
mask; a `click` with a non-null target resolves with
`target.parentElement ? target.parentElement : target`. -/
def elemStep (st : Option (Except String Nat)) (e : ElemEvent) : Option (Except String Nat) :=
  match st with
  | some _ => st
  | none =>
    match e with
    | ElemEvent.keyUp k =>
        if k = "Escape" then some (Except.error "AbortError") else none
    | ElemEvent.mouseMoveOver _ => none
    | ElemEvent.click none => none
    | ElemEvent.click (some t) => some (Except.ok (t.parent.getD t.self))

/-- `letUserSelectCaptureElement` over an event sequence: `none` while
pending, otherwise the rejection's name or the selected element. -/
def letUserSelectCaptureElement (events : List ElemEvent) : Option (Except String Nat) :=
  events.foldl elemStep none

/-- Overlay mutations of `letUserSelectCaptureElement`: the highlight
`div` `svg-screenshot-cutout` is appended before the promise starts and
removed in the `finally` block once the promise settles (either way). -/
def elemSelectorOverlayOps (events : List ElemEvent) : List DomOp :=
  match letUserSelectCaptureElement events with
  | some _ => [DomOp.add "svg-screenshot-cutout", DomOp.remove "svg-screenshot-cutout"]
  | none => [DomOp.add "svg-screenshot-cutout"]

/- ## content.ts : realBackgroundColor (lines 203-209) -/

/-- `realBackgroundColor`: the element is given by its own computed
`backgroundColor` and the computed `backgroundColor`s of its ancestor
chain (nearest first). If the color is `rgba(0, 0, 0, 0)` or
`transparent` and a parent element exists, recurse into the parent;
otherwise return the color. -/
def realBackgroundColor : String → List String → String
  | background, [] => background
  | background, p :: rest =>
      if background == "rgba(0, 0, 0, 0)" || background == "transparent" then
        realBackgroundColor p rest
      else background

/-- The element-capture branch of `capture` (lines 61-64): the root
`svg` element's `style.backgroundColor` is assigned
`realBackgroundColor(captureElement)`. -/
def elementCaptureSvgBackground (elementBg : String) (ancestorBgs : List String) : String :=
  realBackgroundColor elementBg ancestorBgs

/- ## background page : uploadToS3 -/

/-- The parts of a URL the upload code manipulates. -/
structure Url where
  scheme : String
  hostname : String
  pathname : String
deriving DecidableEq, Repr

/-- The `url.pathname = p` setter: a missing leading `/` is prepended. -/
def setUrlPathname (u : Url) (p : String) : Url :=
  { u with pathname := if p.startsWith "/" then p else "/" ++ p }

/-- The argument object of `new PutObjectCommand({...})`. -/
structure PutObjectCommandInput where
  Bucket : String
  Key : String
  Body : String
  CacheControl : String
  ContentType : String
deriving DecidableEq, Repr

/-- `uploadToS3`: builds the object name `<uuid>.svg` (the random key is
the `rand` parameter), sends a `PutObjectCommand` with fixed
cache-control and content-type, then builds the public URL from the
configured endpoint (default `https://s3.amazonaws.com/`), prefixing
the bucket onto its hostname and setting the pathname to the name. -/
def uploadToS3 (svg : String) (endpoint : Option Url) (bucket : String) (rand : String) :
    PutObjectCommandInput × Url :=
  let name := rand ++ ".svg"
  let command : PutObjectCommandInput :=
    { Bucket := bucket
      Key := name
      Body := svg
      CacheControl := "max-age=31536000"
      ContentType := "image/svg+xml" }
  let url0 := endpoint.getD { scheme := "https", hostname := "s3.amazonaws.com", pathname := "/" }
  let url1 := { url0 with hostname := bucket ++ "." ++ url0.hostname }
  (command, setUrlPathname url1 name)

/- ## popup.ts : options form change handler (lines 77-93) -/

/-- The observable shape of the changed control: whether it is an
`HTMLInputElement`, its `type`, `name`, `value` and `checked`. -/
structure FormControl where
  isInput : Bool
  controlType : String
  name : String
  value : String
  checked : Bool
deriving DecidableEq, Repr

/-- What the change handler persists to `browser.storage.sync`. -/
inductive FormAction
  | ignored
  | setBool (key : String) (value : Bool)
  | setString (key : String) (value : String)
deriving DecidableEq, Repr

/-- The options-form `change` handler: a target that is not an
`HTMLInputElement` is ignored (early `return`); `checkbox` persists
`checked`; `radio` and `text` persist `value`; any other input type
throws `Unexpected form element ...`. -/
def optionsChangeHandler (c : FormControl) : Except String FormAction :=
  if !c.isInput then Except.ok FormAction.ignored
  else if c.controlType = "checkbox" then Except.ok (FormAction.setBool c.name c.checked)
  else if c.controlType = "radio" then Except.ok (FormAction.setString c.name c.value)
  else if c.controlType = "text" then Except.ok (FormAction.setString c.name c.value)
  else Except.error ("Unexpected form element " ++ c.controlType)

/- ## Claim-level predicates and sample inputs -/

/-- The defaulting behaviour of `applyDefaults` on a possibly partial
record `s`: present fields are kept, absent fields get the fixed
defaults, complete records are fixed points, and the function is
idempotent. -/
def ApplyDefaultsClaim (s : Settings) (r : RequiredSettings) : Prop :=
  (∀ b, s.minifySvg = some b → (applyDefaults s).minifySvg = b) ∧
  (s.minifySvg = none → (applyDefaults s).minifySvg = false) ∧
  (∀ b, s.inlineResources = some b → (applyDefaults s).inlineResources = b) ∧
  (s.inlineResources = none → (applyDefaults s).inlineResources = true) ∧
  (∀ b, s.prettyPrintSvg = some b → (applyDefaults s).prettyPrintSvg = b) ∧
  (s.prettyPrintSvg = none → (applyDefaults s).prettyPrintSvg = true) ∧
  (∀ b, s.keepLinks = some b → (applyDefaults s).keepLinks = b) ∧
  (s.keepLinks = none → (applyDefaults s).keepLinks = true) ∧
  (∀ t, s.target = some t → (applyDefaults s).target = t) ∧
  (s.target = none → (applyDefaults s).target = Target.download) ∧
  (∀ v, s.s3Bucket = some v → (applyDefaults s).s3Bucket = v) ∧
  (s.s3Bucket = none → (applyDefaults s).s3Bucket = "") ∧
  (∀ v, s.s3Config = some v → (applyDefaults s).s3Config = v) ∧
  (s.s3Config = none → (applyDefaults s).s3Config = "") ∧
  applyDefaults (RequiredSettings.toSettings r) = r ∧
  applyDefaults (RequiredSettings.toSettings (applyDefaults s)) = applyDefaults s

/-- A settings record with minification enabled and pretty-printing
requested at the same time. -/
def sampleMinifySettings : RequiredSettings :=
  { minifySvg := true
    inlineResources := true
    prettyPrintSvg := true
    keepLinks := true
    target := Target.download
    s3Bucket := ""
    s3Config := "" }

/-- A partial settings record mixing present and absent fields. -/
def sampleSettings : Settings :=
  { minifySvg := some true
    inlineResources := none
    prettyPrintSvg := some false
    keepLinks := none
    target := some Target.tab
    s3Bucket := none
    s3Config := some "cfg" }

/-- A changed form control that is not an `HTMLInputElement` (a
`select` control, whose type is `select-one`). -/
def selectChangeTarget : FormControl :=
  { isInput := false
    controlType := "select-one"
    name := "target"
    value := "upload-s3"
    checked := false }

/- ## Theorems -/

/-- Claim C1: the export step performs exactly one delivery action per
target: `download` saves a file named from the title with `"`, `'`, `/`
stripped and suffixed " Screenshot.svg"; `tab` opens the content via an
object URL; `clipboard` writes the text. The remote-upload target,
however, is not dispatched: the final `else` throws
`Unexpected SVG target upload-s3`. -/
theorem exportSink_dispatch (title svg : String) :
    exportDispatch Target.download title svg
      = Except.ok (ExportAction.saveFile (strippedTitle title ++ " Screenshot.svg") svg) ∧
    exportDispatch Target.tab title svg = Except.ok (ExportAction.openTab svg) ∧
    exportDispatch Target.clipboard title svg = Except.ok (ExportAction.clipboardWrite svg) ∧
    exportDispatch Target.uploadS3 title svg
      = Except.error "Unexpected SVG target upload-s3" :=
  ⟨rfl, rfl, rfl, rfl⟩

/-- Claim C3: whenever `minifySvg` is true, the pretty-printing step is
not among the applied post-processing steps, regardless of
`prettyPrintSvg`. -/
theorem minify_suppresses_prettyPrint (f : PipeFns) (settings : RequiredSettings)
    (s : String) (h : settings.minifySvg = true) :
    PipeStep.prettyStep ∉ (processSvgString f settings s).2 := by
  by_cases hi : settings.inlineResources <;>
    simp [processSvgString, h, hi]

/-- Witness for C3 at a concrete settings record with both `minifySvg`
and `prettyPrintSvg` enabled. -/
theorem minify_suppresses_prettyPrint_witness :
    PipeStep.prettyStep ∉ (processSvgString ⟨id, id, id⟩ sampleMinifySettings "<svg/>").2 :=
  minify_suppresses_prettyPrint _ _ _ rfl

/-- Claim C8: the URL returned by `uploadToS3` with a configured
endpoint has hostname `<bucket>.<endpoint host>`, the uploaded object
key is `<rand>.svg`, and the URL path is that key (hence ends in
`.svg`). -/
theorem uploadToS3_url_shape (svg bucket rand : String) (ep : Url) :
    (uploadToS3 svg (some ep) bucket rand).2.hostname = bucket ++ "." ++ ep.hostname ∧
    (uploadToS3 svg (some ep) bucket rand).1.Key = rand ++ ".svg" ∧
    ∃ stem, (uploadToS3 svg (some ep) bucket rand).2.pathname = stem ++ ".svg" := by
  refine ⟨rfl, rfl, ?_⟩
  by_cases h : (rand ++ ".svg").startsWith "/"
  · exact ⟨rand, by simp [uploadToS3, setUrlPathname, h]⟩
  · exact ⟨"/" ++ rand, by simp [uploadToS3, setUrlPathname, h, String.append_assoc]⟩

/-- Counterexample for C9 as stated: a changed control that is not an
`HTMLInputElement` (a `select`, type `select-one`) is not of a
recognized type, yet the handler silently ignores it instead of
throwing. -/
theorem changeHandler_nonInput_ignored_cex :
    optionsChangeHandler selectChangeTarget = Except.ok FormAction.ignored ∧
    (selectChangeTarget.controlType ≠ "checkbox" ∧
      selectChangeTarget.controlType ≠ "radio" ∧
      selectChangeTarget.controlType ≠ "text") ∧
    ∀ e, optionsChangeHandler selectChangeTarget ≠ Except.error e := by
  refine ⟨rfl, by decide, ?_⟩
  intro e h
  simp [optionsChangeHandler, selectChangeTarget] at h

/-- Claim C9 (amended): a change event whose control is an
`HTMLInputElement` of an unrecognized input type makes the handler
throw; controls that are not input elements are silently ignored. -/
theorem changeHandler_unrecognized_input_throws (c : FormControl)
    (hIn : c.isInput = true)
    (h1 : c.controlType ≠ "checkbox") (h2 : c.controlType ≠ "radio")
    (h3 : c.controlType ≠ "text") :
    optionsChangeHandler c = Except.error ("Unexpected form element " ++ c.controlType) := by
  simp [optionsChangeHandler, hIn, h1, h2, h3]

/-- Witness for the amended C9 at a concrete `number` input. -/
theorem changeHandler_unrecognized_input_throws_witness :
    optionsChangeHandler
        { isInput := true, controlType := "number", name := "s3Bucket",
          value := "b", checked := false }
      = Except.error ("Unexpected form element " ++ "number") :=
  changeHandler_unrecognized_input_throws _ rfl (by decide) (by decide) (by decide)

/-- Claim C10: `applyDefaults` keeps every present field, fills every
absent field with its fixed default, is the identity on complete
records, and is idempotent. -/
theorem applyDefaults_defaults_and_idempotent (s : Settings) (r : RequiredSettings) :
    ApplyDefaultsClaim s r := by
  unfold ApplyDefaultsClaim
  refine ⟨?_, ?_, ?_, ?_, ?_, ?_, ?_, ?_, ?_, ?_, ?_, ?_, ?_, ?_, rfl, rfl⟩ <;>
    first
    | (intro b hb; simp [applyDefaults, hb])
    | (intro hb; simp [applyDefaults, hb])

/-- Witness for C10 at a concrete partial settings record. -/
theorem applyDefaults_defaults_and_idempotent_witness :
    ApplyDefaultsClaim sampleSettings (applyDefaults sampleSettings) :=
  applyDefaults_defaults_and_idempotent sampleSettings (applyDefaults sampleSettings)

/-- Claim C2: for every capture outcome (success, cancellation, other
failure), the `finished` message appears exactly once in the trace of
`main`, and only as the very last effect (it is sent in the `finally`
block after the session ends). -/
theorem finished_sent_exactly_once (o : CaptureOutcome) :
    (mainTrace o).countP isFinishedMessage = 1 ∧
    ∃ pre, mainTrace o = pre ++ [Effect.sendMessage "finished"] ∧
      pre.countP isFinishedMessage = 0 := by
  cases o with
  | success => exact ⟨rfl, [Effect.sendMessage "started"], rfl, rfl⟩
  | failure n m =>
    by_cases hn : n = "AbortError"
    · subst hn
      exact ⟨rfl, [Effect.sendMessage "started"], rfl, rfl⟩
    · refine ⟨?_, [Effect.sendMessage "started", Effect.consoleError n m,
        Effect.alertShown (alertText m)], ?_, ?_⟩ <;>
        simp [mainTrace, hn, isFinishedMessage, List.countP_cons, List.countP_append]

/-- Claim C6: a capture session that fails with the cancellation signal
(`AbortError`) produces no alert, while any other error produces an
alert whose text contains the error's message and a console log of the
error. -/
theorem capture_error_reporting (n m : String) :
    (n = "AbortError" → ∀ s, Effect.alertShown s ∉ mainTrace (CaptureOutcome.failure n m)) ∧
    (n ≠ "AbortError" →
      Effect.alertShown (alertText m) ∈ mainTrace (CaptureOutcome.failure n m) ∧
      Effect.consoleError n m ∈ mainTrace (CaptureOutcome.failure n m) ∧
      ∃ pre post, alertText m = pre ++ m ++ post) := by
  constructor
  · intro hn s
    subst hn
    simp [mainTrace]
  · intro hn
    refine ⟨?_, ?_, "An error happened while capturing the page: ",
      "\nCheck the developer console for more information.", rfl⟩ <;>
      simp [mainTrace, hn]

/-- Witness for C6: a cancelled session shows no alert; a `TypeError`
session alerts with the message embedded. -/
theorem capture_error_reporting_witness :
    (∀ s, Effect.alertShown s ∉ mainTrace (CaptureOutcome.failure "AbortError" "x")) ∧
    Effect.alertShown (alertText "boom") ∈ mainTrace (CaptureOutcome.failure "TypeError" "boom") :=
  ⟨(capture_error_reporting "AbortError" "x").1 rfl,
    ((capture_error_reporting "TypeError" "boom").2 (by decide)).1⟩

/-- An element whose computed background is not transparent resolves to
its own background color. -/
theorem realBackgroundColor_of_opaque (bg : String) (rest : List String)
    (h : (bg == "rgba(0, 0, 0, 0)" || bg == "transparent") = false) :
    realBackgroundColor bg rest = bg := by
  cases rest <;> simp [realBackgroundColor, h]

/-- Claim C7: if the captured element's computed background color is
transparent and some ancestor has a non-transparent one, the color
assigned to the root svg element is the nearest such ancestor's
background color. -/
theorem elementCapture_background_from_nearest_opaque_ancestor
    (own : String) (ancestors : List String) (c : String)
    (htrans : (own == "rgba(0, 0, 0, 0)" || own == "transparent") = true)
    (hfind : ancestors.find?
        (fun a => !(a == "rgba(0, 0, 0, 0)" || a == "transparent")) = some c) :
    elementCaptureSvgBackground own ancestors = c := by
  induction ancestors generalizing own with
  | nil => simp at hfind
  | cons p rest ih =>
    by_cases hp : (p == "rgba(0, 0, 0, 0)" || p == "transparent") = true
    · have hfind' : rest.find?
          (fun a => !(a == "rgba(0, 0, 0, 0)" || a == "transparent")) = some c := by
        rwa [List.find?_cons_of_neg _ (by simp [hp])] at hfind
      have := ih p hp hfind'
      simpa [elementCaptureSvgBackground, realBackgroundColor, htrans] using this
    · have hp' : (p == "rgba(0, 0, 0, 0)" || p == "transparent") = false := by
        simpa using hp
      have hc : c = p := by
        rw [List.find?_cons_of_pos _ (by simp [hp'])] at hfind
        exact (Option.some.injEq _ _ ▸ hfind).symm
      subst hc
      simp [elementCaptureSvgBackground, realBackgroundColor, htrans,
        realBackgroundColor_of_opaque _ _ hp']

/-- Witness for C7: a transparent element inside a transparent parent
inside a white ancestor resolves to white. -/
theorem elementCapture_background_witness :
    elementCaptureSvgBackground "rgba(0, 0, 0, 0)"
        ["transparent", "rgb(255, 255, 255)", "rgb(10, 20, 30)"] = "rgb(255, 255, 255)" :=
  elementCapture_background_from_nearest_opaque_ancestor _ _ _ (by decide) (by decide)

/-- After `mousedown` recorded anchor `a`, a run of `mousemove` events
keeps the promise pending and the anchor fixed, and folds the cutout
through `dragMoveCutout a`. -/
theorem foldl_areaStep_mouseMoves (a : Pt) (c : CutoutState) (ps : List Pt) :
    List.foldl areaStep { anchor := some a, cutout := c, resolved := none }
        (ps.map SelEvent.mouseMove)
      = { anchor := some a
          cutout := ps.foldl (fun _ p => dragMoveCutout a p) c
          resolved := none } := by
  induction ps generalizing c with
  | nil => rfl
  | cons p rest ih => exact ih (dragMoveCutout a p)

/-- The cutout after a sequence of moves is determined by the last one. -/
theorem foldl_dragMove_concat (a : Pt) (c : CutoutState) (ps : List Pt) (r : Pt) :
    (ps ++ [r]).foldl (fun _ p => dragMoveCutout a p) c = dragMoveCutout a r := by
  rw [List.foldl_append]
  rfl

/-- Claim C4: a drag sequence (mousedown at the anchor, mousemoves
ending at the release point, mouseup there) resolves the area selection
with a rectangle of non-negative width and height whose position is the
component-wise minimum of anchor and release coordinates. -/
theorem area_selection_rect_normalized (a : Pt) (moves : List Pt) (r : Pt) :
    letUserSelectCaptureArea
        (SelEvent.mouseDown a ::
          ((moves ++ [r]).map SelEvent.mouseMove ++ [SelEvent.mouseUp r]))
      = some (Except.ok (dragMoveCutout a r)) ∧
    0 ≤ (dragMoveCutout a r).width ∧ 0 ≤ (dragMoveCutout a r).height ∧
    (dragMoveCutout a r).x = min a.x r.x ∧ (dragMoveCutout a r).y = min a.y r.y := by
  refine ⟨?_, by simp [dragMoveCutout], by simp [dragMoveCutout], rfl, rfl⟩
  unfold letUserSelectCaptureArea
  rw [List.foldl_cons]
  have h0 : areaStep areaSelectorInitSt (SelEvent.mouseDown a)
      = { anchor := some a, cutout := areaSelectorInitSt.cutout, resolved := none } := rfl
  rw [h0, List.foldl_append, foldl_areaStep_mouseMoves, foldl_dragMove_concat]
  rfl

/-- Claim C5: whenever either selection overlay's promise settles
(successfully or by cancellation), the overlay element it added is no
longer in the document afterward. -/
theorem selection_overlays_removed_after_settle
    (ev1 : List SelEvent) (ev2 : List ElemEvent)
    (r1 : Except String CutoutState) (r2 : Except String Nat)
    (h1 : letUserSelectCaptureArea ev1 = some r1)
    (h2 : letUserSelectCaptureElement ev2 = some r2) :
    overlayInDocument "svg-screenshot-selector" (areaSelectorOverlayOps ev1) = false ∧
    overlayInDocument "svg-screenshot-cutout" (elemSelectorOverlayOps ev2) = false := by
  constructor
  · unfold areaSelectorOverlayOps
    rcases hres : (ev1.foldl areaStep areaSelectorInitSt).resolved with _ | res
    · unfold letUserSelectCaptureArea at h1
      rw [hres] at h1
      simp at h1
    · rfl
  · unfold elemSelectorOverlayOps
    rw [h2]
    rfl

/-- Witness for C5: an area selection that resolves (down then up) and
an element selection that is cancelled with Escape both leave their
overlay removed. -/
theorem selection_overlays_removed_witness :
    overlayInDocument "svg-screenshot-selector"
        (areaSelectorOverlayOps [SelEvent.mouseDown ⟨0, 0⟩, SelEvent.mouseUp ⟨0, 0⟩]) = false ∧
    overlayInDocument "svg-screenshot-cutout"
        (elemSelectorOverlayOps [ElemEvent.keyUp "Escape"]) = false :=
  selection_overlays_removed_after_settle _ _
    (Except.ok { x := 0, y := 0, width := 0, height := 0 }) (Except.error "AbortError") rfl rfl
